import Mathlib

/-!
Verification of the Trello-to-GitHub migration tool (`src/index.ts`,
`src/lib/label.ts`, `src/lib/schemas.ts`).

The development shallowly embeds the reconciliation and mapping engine:

* the data model (Trello board export, user mapping document, GitHub remote
  state) as Lean structures;
* label classification (`src/index.ts` lines 889-920), list-mapping
  classification (lines 922-977), skip-list resolution (lines 979-991),
  member resolution (lines 785-805 and 1148-1164), card rendering
  (lines 1168-1252), and the migration driver's control flow as pure
  functions;
* the driver's side effects against the remote as an explicit trace of
  `RemoteCall`s, with the read-only remote state (labels, milestones, user
  lookups, project fields) passed in as data.

Remote responses that only feed later calls (issue node ids, project item
ids) are identified by the originating card's id in the trace.
-/

namespace TrelloToGithub

/-! ## Data model: the Trello board export (`BoardExport` in `src/lib/schemas.ts`) -/

structure TrelloList where
  id : String
  name : String
  closed : Bool
deriving DecidableEq, Repr

structure TrelloMember where
  id : String
  fullName : String
  username : String
deriving DecidableEq, Repr

structure TrelloLabelRef where
  id : String
  name : String
  color : String
  uses : Int
deriving DecidableEq, Repr

structure TrelloAttachment where
  name : String
  url : String
deriving DecidableEq, Repr

structure TrelloCard where
  id : String
  closed : Bool
  desc : String
  idList : String
  idMembers : List String
  labels : List TrelloLabelRef
  name : String
  idChecklists : List String
  url : String
  attachments : List TrelloAttachment
deriving DecidableEq, Repr

structure CheckItem where
  id : String
  name : String
  complete : Bool
deriving DecidableEq, Repr

structure TrelloChecklist where
  id : String
  name : String
  idCard : String
  checkItems : List CheckItem
deriving DecidableEq, Repr

structure MemberCreator where
  id : String
  username : String
deriving DecidableEq, Repr

structure CommentData where
  idCard : String
  text : String
deriving DecidableEq, Repr

/-- Board actions: only `commentCard` actions carry data; all others are
stripped to a payload-free variant during parsing. Dates are modelled as
integers (`Date.getTime()` order). -/
inductive TrelloAction
  | commentCard (id : String) (memberCreator : MemberCreator) (data : CommentData) (date : Int)
  | other
deriving DecidableEq, Repr

structure Board where
  name : String
  lists : List TrelloList
  members : List TrelloMember
  actions : List TrelloAction
  cards : List TrelloCard
  labels : List TrelloLabelRef
  checklists : List TrelloChecklist
deriving DecidableEq, Repr

/-! ## Data model: the user mapping document (`MapFormat` in `src/lib/schemas.ts`) -/

/-- A TOML value that is either a string or an integer (the `github` side of a
fetch-label mapping, `lists[].label`, `lists[].milestone`). Mirrors JS strict
equality: an int never compares equal to a string. -/
inductive StrOrInt
  | str (s : String)
  | int (n : Int)
deriving DecidableEq, Repr

/-- JS truthiness of a string-or-int value (`""` and `0` are falsy). -/
def StrOrInt.truthy : StrOrInt → Bool
  | .str s => !(s == "")
  | .int n => !(n == 0)

inductive LabelMapping
  | fetch (trello : String) (github : StrOrInt)
  | create (trello : String) (github : String) (color : Option String)
deriving DecidableEq, Repr

def LabelMapping.trello : LabelMapping → String
  | .fetch t _ => t
  | .create t _ _ => t

structure UserMapping where
  trello : String
  github : String
deriving DecidableEq, Repr

structure ListMapping where
  list : String
  label : Option StrOrInt
  milestone : Option StrOrInt
  status : Option String
deriving DecidableEq, Repr

inductive RepoOwner
  | user (login : String)
  | organization (login : String)
deriving DecidableEq, Repr

structure RepoRef where
  owner : RepoOwner
  repo : String
deriving DecidableEq, Repr

structure MapDoc where
  project : Option Int
  repo : RepoRef
  labels : List LabelMapping
  users : List UserMapping
  lists : List ListMapping
  skipLists : List String
deriving DecidableEq, Repr

/-! ## Data model: remote GitHub state (read-only inputs of a run) -/

structure GhLabel where
  id : Int
  name : String
  color : String
deriving DecidableEq, Repr

structure GhMilestone where
  id : Int
  number : Int
  title : String
deriving DecidableEq, Repr

structure StatusOption where
  id : String
  name : String
  color : String
deriving DecidableEq, Repr

structure ProjectInfo where
  projectId : String
  projectName : String
  statusFieldId : String
  statusFieldOptions : List StatusOption
deriving DecidableEq, Repr

structure GhUser where
  login : String
deriving DecidableEq, Repr

/-! ## Member resolution (`src/index.ts` lines 785-805, 1083-1084, 1148-1164) -/

/-- One entry of the `users` array built by the user-lookup loop: the Trello
side name from the mapping, the GitHub username it was looked up under, and
the lookup result (`none` models the HTTP 404 / `github: null` case). -/
structure ResolvedUser where
  trelloName : String
  githubName : String
  github : Option GhUser
deriving DecidableEq, Repr

/-- The user-lookup loop (lines 785-805): one `GET /users/{username}` per
mapping entry, a 404 recorded as `github = none`. -/
def resolveUsers (mus : List UserMapping) (lookup : String → Option GhUser) :
    List ResolvedUser :=
  mus.map fun u => ⟨u.trello, u.github, lookup u.github⟩

/-- Source: `[trelloMember.id, trelloMember.username, trelloMember.fullName].includes(mem.trelloName)`
(line 1153-1156). -/
def memberMatchesTrello (tm : TrelloMember) (mem : ResolvedUser) : Bool :=
  mem.trelloName == tm.id || mem.trelloName == tm.username || mem.trelloName == tm.fullName

/-- Source: `mapMemberId` (lines 1148-1160). -/
def mapMemberId (boardMembers : List TrelloMember) (validMembers : List ResolvedUser)
    (trelloMemberId : String) : Option String :=
  match boardMembers.find? (fun mem => mem.id == trelloMemberId) with
  | none => none
  | some trelloMember =>
    match validMembers.find? (memberMatchesTrello trelloMember) with
    | none => none
    | some member =>
      match member.github with
      | none => none
      | some gh => some gh.login

/-- Source: `mapMemberIds` (lines 1162-1164). -/
def mapMemberIds (boardMembers : List TrelloMember) (validMembers : List ResolvedUser)
    (trelloMemberIds : List String) : List String :=
  trelloMemberIds.filterMap (mapMemberId boardMembers validMembers)

/-! ## Label classification (`src/index.ts` lines 869-920 and `src/lib/label.ts`) -/

inductive Label
  | skipped (trello : TrelloLabelRef)
  | toCreate (trello : TrelloLabelRef) (githubName : String) (githubColor : Option String)
  | missing (trello : TrelloLabelRef) (githubLookup : StrOrInt)
  | mapped (trello : TrelloLabelRef) (github : GhLabel)
  | missingList (githubLookup : StrOrInt) (trelloList : TrelloList)
  | listMapped (github : GhLabel) (trelloList : TrelloList)
deriving DecidableEq, Repr

/-- Source: `(Number.isInteger(lookup) && ghLabel.id === lookup) || ghLabel.name === lookup`
(lines 906-910): under JS strict equality an int lookup can only match `id`
and a string lookup can only match `name`. -/
def ghLabelMatches (lookup : StrOrInt) (gh : GhLabel) : Bool :=
  match lookup with
  | .int n => gh.id == n
  | .str s => gh.name == s

/-- One iteration of the Trello-label classification loop (lines 889-920). -/
def classifyTrelloLabel (mapLabels : List LabelMapping) (ghLabels : List GhLabel)
    (tl : TrelloLabelRef) : Label :=
  match mapLabels.find? (fun lm => lm.trello == tl.name) with
  | none => .skipped tl
  | some (.create _ gh color) => .toCreate tl gh color
  | some (.fetch _ lookup) =>
    match ghLabels.find? (ghLabelMatches lookup) with
    | none => .missing tl lookup
    | some gh => .mapped tl gh

/-- The whole loop over `trello.labels`. -/
def classifyTrelloLabels (board : Board) (mapLabels : List LabelMapping)
    (ghLabels : List GhLabel) : List Label :=
  board.labels.map (classifyTrelloLabel mapLabels ghLabels)

def Label.isMappedLike : Label → Bool
  | .toCreate _ _ _ => true
  | .mapped _ _ => true
  | .listMapped _ _ => true
  | _ => false

def Label.isMissingLike : Label → Bool
  | .missing _ _ => true
  | .missingList _ _ => true
  | _ => false

def Label.isSkipped : Label → Bool
  | .skipped _ => true
  | _ => false

def Label.isToCreate : Label → Bool
  | .toCreate _ _ _ => true
  | _ => false

def Label.isListMapped : Label → Bool
  | .listMapped _ _ => true
  | _ => false

/-- The Trello-side label carried by a classification, when there is one
(`skipped`, `toCreate`, `missing` and `mapped` carry one; the two list-origin
variants do not). -/
def Label.trelloRef : Label → Option TrelloLabelRef
  | .skipped t => some t
  | .toCreate t _ _ => some t
  | .missing t _ => some t
  | .mapped t _ => some t
  | .missingList _ _ => none
  | .listMapped _ _ => none

def Label.githubName : Label → Option String
  | .toCreate _ n _ => some n
  | .mapped _ gh => some gh.name
  | .listMapped gh _ => some gh.name
  | _ => none

def Label.trelloListId : Label → Option String
  | .missingList _ l => some l.id
  | .listMapped _ l => some l.id
  | _ => none

/-! ## Trello label rendering (`src/lib/label.ts` lines 54-98) -/

/-- The keys of `colorMap` in `src/lib/label.ts`. -/
def trelloColorPalette : List String :=
  ["lime_light", "lime", "lime_dark",
   "red_light", "red", "red_dark",
   "orange_light", "orange", "orange_dark",
   "yellow_light", "yellow", "yellow_dark",
   "green_light", "green", "green_dark",
   "sky_light", "sky", "sky_dark",
   "blue_light", "blue", "blue_dark",
   "purple_light", "purple", "purple_dark",
   "pink_light", "pink", "pink_dark",
   "black_light", "black", "black_dark"]

/-- Source: `renderTrelloLabel` (lines 87-98) succeeds iff `colorMap[label.trello.color]`
is defined; otherwise the `invariant` call throws. -/
def renderTrelloLabelOk (t : TrelloLabelRef) : Bool :=
  trelloColorPalette.contains t.color

/-- The labels displayed before the fatal-validation check all render without
throwing. `renderTrelloLabel` is called on every classified label that
carries a Trello-side label: the mapped/toCreate ones in the "Mapping labels"
note (lines 1006-1019), the skipped ones in the skip warning (1034-1039), and
the `missing` ones in the missing-labels error (1041-1050). -/
def displayRenderOk (labels : List Label) : Bool :=
  labels.all fun l =>
    match l.trelloRef with
    | some t => renderTrelloLabelOk t
    | none => true

/-! ## List-mapping classification (`src/index.ts` lines 869-991) -/

/-- Source: `(Number.isInteger(m) && (milestone.id === m || milestone.number === m)) || milestone.title === m`
(lines 949-955). -/
def milestoneMatches (lookup : StrOrInt) (ms : GhMilestone) : Bool :=
  match lookup with
  | .int n => ms.id == n || ms.number == n
  | .str s => ms.title == s

/-- Source: `field.id === mapping.status || field.name === mapping.status` (line 969). -/
def statusMatches (lookup : String) (opt : StatusOption) : Bool :=
  opt.id == lookup || opt.name == lookup

/-- The accumulators filled by the `map.lists` loop (lines 869-977).
`validMilestones` and `validStatusFields` model the two `Map`s keyed by
Trello list id; `Map.set` is modelled by prepending and `Map.get` by the
first matching entry. -/
structure ListClassState where
  labels : List Label
  invalidLists : List String
  validMilestones : List (String × GhMilestone)
  missingMilestones : List StrOrInt
  usedStatusWithoutProject : Bool
  validStatusFields : List (String × StatusOption)
  missingStatusFields : List String
deriving DecidableEq, Repr

def ListClassState.init : ListClassState :=
  ⟨[], [], [], [], false, [], []⟩

/-- Source: `Map.get` (first entry wins, since `mapSet` prepends). -/
def mapGet {α : Type} (m : List (String × α)) (k : String) : Option α :=
  (m.find? (fun p => p.1 == k)).map (fun p => p.2)

/-- Source: `if (mapping.label) { ... }` (lines 931-946). The returned flag is false
when the loop body hit `continue`, skipping the milestone and status parts. -/
def processLabelPart (ghLabels : List GhLabel) (trelloList : TrelloList)
    (m : ListMapping) (st : ListClassState) : ListClassState × Bool :=
  match m.label with
  | some lab =>
    if lab.truthy then
      match ghLabels.find? (ghLabelMatches lab) with
      | none => ({ st with labels := st.labels ++ [.missingList lab trelloList] }, false)
      | some gh => ({ st with labels := st.labels ++ [.listMapped gh trelloList] }, true)
    else (st, true)
  | none => (st, true)

/-- Source: `if (mapping.milestone) { ... }` (lines 948-961). -/
def processMilestonePart (ghMilestones : List GhMilestone) (trelloList : TrelloList)
    (m : ListMapping) (st : ListClassState) : ListClassState × Bool :=
  match m.milestone with
  | some ms =>
    if ms.truthy then
      match ghMilestones.find? (milestoneMatches ms) with
      | none => ({ st with missingMilestones := st.missingMilestones ++ [ms] }, false)
      | some ghm =>
        ({ st with validMilestones := (trelloList.id, ghm) :: st.validMilestones }, true)
    else (st, true)
  | none => (st, true)

/-- Source: `if (projectInfo && mapping.status) { ... }` (lines 963-976). The source's
inner `if (!projectInfo)` branch (lines 964-967) is kept verbatim; it is
unreachable because the enclosing guard already requires `projectInfo`. -/
def processStatusPart (projectInfo : Option ProjectInfo) (trelloList : TrelloList)
    (m : ListMapping) (st : ListClassState) : ListClassState :=
  match projectInfo, m.status with
  | some pi, some status =>
    if status == "" then st
    else if projectInfo.isNone then
      { st with usedStatusWithoutProject := true }
    else
      match pi.statusFieldOptions.find? (statusMatches status) with
      | none => { st with missingStatusFields := st.missingStatusFields ++ [status] }
      | some opt =>
        { st with validStatusFields := (trelloList.id, opt) :: st.validStatusFields }
  | _, _ => st

/-- One iteration of the `map.lists` loop (lines 922-977): resolve the `list`
key by id-or-name, then run the label, milestone, and status parts in order,
each `continue` cutting the rest of the iteration short. -/
def processListMapping (board : Board) (ghLabels : List GhLabel)
    (ghMilestones : List GhMilestone) (projectInfo : Option ProjectInfo)
    (st : ListClassState) (m : ListMapping) : ListClassState :=
  match board.lists.find? (fun l => l.id == m.list || l.name == m.list) with
  | none => { st with invalidLists := st.invalidLists ++ [m.list] }
  | some trelloList =>
    let r1 := processLabelPart ghLabels trelloList m st
    if !r1.2 then r1.1
    else
      let r2 := processMilestonePart ghMilestones trelloList m r1.1
      if !r2.2 then r2.1
      else processStatusPart projectInfo trelloList m r2.1

def classifyListMappings (board : Board) (ghLabels : List GhLabel)
    (ghMilestones : List GhMilestone) (projectInfo : Option ProjectInfo)
    (mappings : List ListMapping) : ListClassState :=
  mappings.foldl (processListMapping board ghLabels ghMilestones projectInfo) .init

/-- The `map.skip.lists` loop (lines 979-991): resolved lists are collected,
unresolved keys accumulate as invalid list references. -/
def resolveSkipLists (board : Board) (keys : List String) :
    List TrelloList × List String :=
  keys.foldl
    (fun acc key =>
      match board.lists.find? (fun l => l.id == key || l.name == key) with
      | some l => (acc.1 ++ [l], acc.2)
      | none => (acc.1, acc.2 ++ [key]))
    ([], [])

/-- Source: `getProjectInfo` (lines 807-867): `null` when `map.project` is unset (or
`0`, which is falsy); otherwise the project data fetched from the GraphQL
API, supplied here as an input. -/
def getProjectInfo (mapDoc : MapDoc) (projData : ProjectInfo) : Option ProjectInfo :=
  match mapDoc.project with
  | none => none
  | some n => if n == 0 then none else some projData

/-! ## Card rendering (`src/index.ts` lines 1166-1252) -/

/-- Source: `getChecklistContentForCard` (lines 1209-1232). -/
def getChecklistContentForCard (checklists : List TrelloChecklist)
    (card : TrelloCard) : Option String :=
  let cls := card.idChecklists.filterMap
    (fun id => checklists.find? (fun c => c.id == id))
  if cls.length < 1 then none
  else
    some (String.intercalate "\n"
      ("\n## Checklists" :: cls.flatMap (fun cl =>
        ("### " ++ cl.name) :: cl.checkItems.map (fun item =>
          if item.complete then "- [x] " ++ item.name
          else "- [ ] " ++ item.name))))

/-- Source: `getDescriptionForCard` (lines 1168-1184). The `if (checklistStr)` guard
is a JS truthiness test, false for both `null` and the empty string. -/
def getDescriptionForCard (checklists : List TrelloChecklist)
    (card : TrelloCard) : String :=
  let body := if card.desc.length > 0 then card.desc ++ "\n\n---\n\n" else ""
  let body :=
    match getChecklistContentForCard checklists card with
    | some s => if s == "" then body else body ++ "\n" ++ s ++ "\n"
    | none => body
  let body := body ++ "\n---\n> Migrated from [Trello Card](" ++ card.url ++ ")"
  body ++ String.intercalate "\n"
    (card.attachments.map (fun a => "- [" ++ a.name ++ "](" ++ a.url ++ ")"))

/-- Source: `getLabelsForCard` (lines 1186-1207): card labels resolved by name against
the non-list mapped labels, then the list label of the card's own list. -/
def getLabelsForCard (mappedLabels : List Label) (card : TrelloCard) : List String :=
  let res := (card.labels.map (fun l => l.name)).filterMap (fun trelloName =>
    match mappedLabels.find? (fun l =>
      !l.isListMapped && l.trelloRef.map (fun t => t.name) == some trelloName) with
    | some found => found.githubName
    | none => none)
  match mappedLabels.find? (fun l =>
    l.isListMapped && l.trelloListId == some card.idList) with
  | some listLabel =>
    res ++ (match listLabel.githubName with
            | some n => [n]
            | none => [])
  | none => res

structure CardComment where
  memberCreator : MemberCreator
  text : String
  date : Int
deriving DecidableEq, Repr

/-- Stable insertion into a date-ascending list: the new element goes after
strictly earlier dates and before later-or-equal ones, so elements with equal
dates keep their original relative order. -/
def insertByDate (c : CardComment) : List CardComment → List CardComment
  | [] => [c]
  | d :: ds => if d.date < c.date then d :: insertByDate c ds else c :: d :: ds

/-- Source: `commentActions.sort((a, b) => a.date.getTime() - b.date.getTime())`
(line 1239): a stable ascending sort by date. -/
def sortCommentsByDate : List CardComment → List CardComment
  | [] => []
  | c :: cs => insertByDate c (sortCommentsByDate cs)

/-- Source: `getCommentsForCard` (lines 1234-1252). `renderDate` stands for the
locale-dependent `date.toLocaleDateString()`. -/
def getCommentsForCard (board : Board) (validMembers : List ResolvedUser)
    (renderDate : Int → String) (card : TrelloCard) : List String :=
  let commentActions := board.actions.filterMap (fun a =>
    match a with
    | .commentCard _ mc data date =>
      if data.idCard == card.id then some (⟨mc, data.text, date⟩ : CardComment)
      else none
    | .other => none)
  (sortCommentsByDate commentActions).map (fun c =>
    let memberString :=
      match mapMemberId board.members validMembers c.memberCreator.id with
      | some login => "@" ++ login
      | none => "`@" ++ c.memberCreator.username ++ "`"
    "## " ++ memberString ++ " • " ++ renderDate c.date ++ "\n" ++ c.text)

/-! ## The migration driver (`src/index.ts` lines 556-1329)

The driver's mutating remote calls are recorded as a trace; read-only calls
(label/milestone listings, user lookups, the project query) are the inputs.
-/

inductive RemoteCall
  | createLabel (name : String) (color : Option String)
  | createIssue (cardId : String) (title : String) (body : String)
      (labels : List String) (assignees : List String) (milestone : Option Int)
  | createComment (cardId : String) (body : String)
  | addProjectItem (cardId : String)
  | setProjectItemStatus (cardId : String) (optionId : String)
deriving DecidableEq, Repr

/-- Source: `label.github.color?.trim().replace(/^#/, "")` (line 1141). -/
def normalizeHexColor (s : String) : String :=
  let t := s.trim
  if t.startsWith "#" then t.drop 1 else t

/-- Everything computed during the `Validating` phase, before any output or
mutating call. -/
structure ValidationState where
  allLabels : List Label
  invalidLists : List String
  validMilestones : List (String × GhMilestone)
  missingMilestones : List StrOrInt
  usedStatusWithoutProject : Bool
  validStatusFields : List (String × StatusOption)
  missingStatusFields : List String
  skippedLists : List TrelloList
  users : List ResolvedUser
deriving DecidableEq, Repr

/-- The classification phase: user lookups (785-805), label classification
(889-920), list-mapping classification (922-977), skip-list resolution
(979-991). The board-label classifications come first in `allLabels`; the
list-mapping loop appends to the same array. -/
def validate (board : Board) (mapDoc : MapDoc) (ghLabels : List GhLabel)
    (ghMilestones : List GhMilestone) (lookup : String → Option GhUser)
    (projData : ProjectInfo) : ValidationState :=
  let users := resolveUsers mapDoc.users lookup
  let projectInfo := getProjectInfo mapDoc projData
  let boardLabels := classifyTrelloLabels board mapDoc.labels ghLabels
  let ls := classifyListMappings board ghLabels ghMilestones projectInfo mapDoc.lists
  let skipRes := resolveSkipLists board mapDoc.skipLists
  { allLabels := boardLabels ++ ls.labels
    invalidLists := ls.invalidLists ++ skipRes.2
    validMilestones := ls.validMilestones
    missingMilestones := ls.missingMilestones
    usedStatusWithoutProject := ls.usedStatusWithoutProject
    validStatusFields := ls.validStatusFields
    missingStatusFields := ls.missingStatusFields
    skippedLists := skipRes.1
    users := users }

def ValidationState.mappedLabels (vs : ValidationState) : List Label :=
  vs.allLabels.filter Label.isMappedLike

def ValidationState.missingLabels (vs : ValidationState) : List Label :=
  vs.allLabels.filter Label.isMissingLike

def ValidationState.skippedLabels (vs : ValidationState) : List Label :=
  vs.allLabels.filter Label.isSkipped

def ValidationState.validMembers (vs : ValidationState) : List ResolvedUser :=
  vs.users.filter (fun mem => mem.github.isSome)

def ValidationState.invalidMembers (vs : ValidationState) : List ResolvedUser :=
  vs.users.filter (fun mem => !mem.github.isSome)

/-- The aggregated fatal check (lines 1098-1107). -/
def ValidationState.fatal (vs : ValidationState) : Bool :=
  !vs.missingLabels.isEmpty || !vs.invalidMembers.isEmpty ||
  !vs.invalidLists.isEmpty || !vs.missingMilestones.isEmpty ||
  !vs.missingStatusFields.isEmpty || vs.usedStatusWithoutProject

/-- Source: `labelsToCreate` entries whose GitHub name already exists remotely
(lines 1116-1119). -/
def existingLabelsToCreate (vs : ValidationState) (ghLabels : List GhLabel) : List Label :=
  (vs.allLabels.filter Label.isToCreate).filter (fun l =>
    match l.githubName with
    | some n => ghLabels.any (fun gh => gh.name == n)
    | none => false)

/-- The label-create call for a `toCreate` classification (lines 1134-1146). -/
def labelCreateCall : Label → Option RemoteCall
  | .toCreate _ n c => some (RemoteCall.createLabel n (c.map normalizeHexColor))
  | _ => none

/-- The project placement after an issue is created (lines 1315-1321):
`addIssueToProject` always, then `setIssueStatus` only when
`validStatusFields.get(card.id)` yields an option. -/
def projCallsForCard (projectInfo : Option ProjectInfo)
    (validStatusFields : List (String × StatusOption)) (card : TrelloCard) :
    List RemoteCall :=
  match projectInfo with
  | some _ =>
    RemoteCall.addProjectItem card.id ::
    (match mapGet validStatusFields card.id with
     | some st => [RemoteCall.setProjectItemStatus card.id st.id]
     | none => [])
  | none => []

/-- One iteration of the card loop (lines 1293-1326): the issue-create call —
with the milestone looked up as `validMilestones.get(card.id)?.number`
(line 1300) — then one comment-create per rendered comment, then the project
calls. -/
def callsForCard (board : Board) (validMembers : List ResolvedUser)
    (mappedLabels : List Label) (validMilestones : List (String × GhMilestone))
    (validStatusFields : List (String × StatusOption))
    (projectInfo : Option ProjectInfo) (renderDate : Int → String)
    (card : TrelloCard) : List RemoteCall :=
  RemoteCall.createIssue card.id card.name
      (getDescriptionForCard board.checklists card)
      (getLabelsForCard mappedLabels card)
      (mapMemberIds board.members validMembers card.idMembers)
      ((mapGet validMilestones card.id).map (fun ms => ms.number))
  :: (getCommentsForCard board validMembers renderDate card).map
       (RemoteCall.createComment card.id)
  ++ projCallsForCard projectInfo validStatusFields card

/-- The `Executing` phase (lines 1134-1326): all label-create calls in
classification order, then the per-card calls over `trello.cards` in original
order — the skip-list filter (line 993) and closed-card filter (line 762)
discard their results, so the full card list is iterated. -/
def executeTrace (board : Board) (vs : ValidationState)
    (projectInfo : Option ProjectInfo) (renderDate : Int → String) :
    List RemoteCall :=
  (vs.allLabels.filter Label.isToCreate).filterMap labelCreateCall
    ++ board.cards.flatMap
        (callsForCard board vs.validMembers vs.mappedLabels vs.validMilestones
          vs.validStatusFields projectInfo renderDate)

inductive Outcome
  | renderPanic
  | validationFailed
  | cancelled
  | completed
deriving DecidableEq, Repr

/-- Process exit status: validation failure exits via `fail()` with code 1
(lines 566-569, 1106); an uncaught `invariant` throw also terminates
non-zero; user cancellation (`onCancel`, lines 561-564) and completion exit
with 0. -/
def Outcome.exitCode : Outcome → Nat
  | .renderPanic => 1
  | .validationFailed => 1
  | .cancelled => 0
  | .completed => 0

structure RunResult where
  outcome : Outcome
  trace : List RemoteCall
deriving DecidableEq, Repr

/-- How a run ends before reaching `Executing`, if it does: the label-display
`invariant` throw (during the notes/warnings of lines 1006-1050), the
aggregated fatal check (1098-1107), the skipped-labels confirmation
(1109-1114), and the existing-labels confirmation (1121-1132), in source
order. `none` means execution proceeds. -/
def runDecision (vs : ValidationState) (ghLabels : List GhLabel)
    (confirmSkipped confirmExisting : Bool) : Option Outcome :=
  if !displayRenderOk vs.allLabels then some .renderPanic
  else if vs.fatal then some .validationFailed
  else if !vs.skippedLabels.isEmpty && !confirmSkipped then some .cancelled
  else if !(existingLabelsToCreate vs ghLabels).isEmpty && !confirmExisting then
    some .cancelled
  else none

/-- A whole run of the migration driver. `keepClosed` models the
`--keep-closed` flag: the guarded filter at lines 761-763 discards its
result, so the flag reaches no other expression. `confirmSkipped` and
`confirmExisting` are the user's answers at the two confirmation prompts. -/
def run (board : Board) (mapDoc : MapDoc) (ghLabels : List GhLabel)
    (ghMilestones : List GhMilestone) (lookup : String → Option GhUser)
    (projData : ProjectInfo) (renderDate : Int → String)
    (keepClosed confirmSkipped confirmExisting : Bool) : RunResult :=
  let vs := validate board mapDoc ghLabels ghMilestones lookup projData
  let projectInfo := getProjectInfo mapDoc projData
  match runDecision vs ghLabels confirmSkipped confirmExisting with
  | some o => ⟨o, []⟩
  | none => ⟨.completed, executeTrace board vs projectInfo renderDate⟩

/-- The card ids of the issue-create calls of a trace. -/
def issueCardId : RemoteCall → Option String
  | .createIssue cardId _ _ _ _ _ => some cardId
  | _ => none

def issueCardIds (trace : List RemoteCall) : List String :=
  trace.filterMap issueCardId

/-! ## Concrete fixtures used by the claim theorems -/

def lookupNone : String → Option GhUser := fun _ => none

def renderDate0 : Int → String := fun _ => "1/1/2024"

def projData0 : ProjectInfo := ⟨"", "", "", []⟩

def repo0 : RepoRef := ⟨.user "piemot", "sample"⟩

/-- A card with no description, members, labels, checklists or attachments. -/
def plainCard (id name idList url : String) : TrelloCard :=
  ⟨id, false, "", idList, [], [], name, [], url, []⟩

/-- Board for C1: a "Done" list with a card, plus a "Todo" list with a card. -/
def board1 : Board :=
  ⟨"B1", [⟨"L1", "Done", false⟩, ⟨"L2", "Todo", false⟩], [], [],
   [plainCard "C1" "Card in Done" "L1" "u1", plainCard "C2" "Card in Todo" "L2" "u2"],
   [], []⟩

/-- Mapping for C1: `skip.lists = ["Done"]` and nothing else. -/
def map1 : MapDoc := ⟨none, repo0, [], [], [], ["Done"]⟩

/-- Board for C2/C3/C5: one list "Doing" with one card. -/
def board2 : Board :=
  ⟨"B2", [⟨"L1", "Doing", false⟩], [], [], [plainCard "C1" "Card" "L1" "u1"], [], []⟩

/-- Mapping for C2: list "L1" mapped to milestone "v1". -/
def map2 : MapDoc := ⟨none, repo0, [], [], [⟨"L1", none, some (.str "v1"), none⟩], []⟩

def ms2 : GhMilestone := ⟨7, 3, "v1"⟩

/-- Mapping for C3: a project plus list "L1" mapped to status "In Progress". -/
def map3 : MapDoc := ⟨some 5, repo0, [], [], [⟨"L1", none, none, some "In Progress"⟩], []⟩

def statusOpt3 : StatusOption := ⟨"OPT1", "In Progress", "BLUE"⟩

def projData3 : ProjectInfo := ⟨"PID", "Proj", "FID", [statusOpt3]⟩

/-- Mapping for C5: a `status` entry under `lists` but no `project`. -/
def map5 : MapDoc := ⟨none, repo0, [], [], [⟨"L1", none, none, some "In Progress"⟩], []⟩

/-- Mapping for the C4 witness: one user mapping whose GitHub lookup 404s. -/
def map4w : MapDoc := ⟨none, repo0, [], [⟨"alice", "ghalice"⟩], [], []⟩

def board0 : Board := ⟨"B0", [], [], [], [], [], []⟩

/-- Board for the C9 witness: a single closed (archived) card. -/
def board9w : Board :=
  ⟨"B9", [⟨"L1", "Done", false⟩], [], [],
   [⟨"C1", true, "", "L1", [], [], "Closed card", [], "u1", []⟩], [], []⟩

/-- Board for the C10 witness: one label with a color outside the palette. -/
def board10w : Board :=
  ⟨"B10", [], [], [], [], [⟨"lb1", "Urgent", "magenta", 0⟩], []⟩

def emptyMap : MapDoc := ⟨none, repo0, [], [], [], []⟩

/-! ## Supporting lemmas -/

theorem validate_allLabels (board : Board) (mapDoc : MapDoc) (ghLabels : List GhLabel)
    (ghMilestones : List GhMilestone) (lookup : String → Option GhUser)
    (projData : ProjectInfo) :
    (validate board mapDoc ghLabels ghMilestones lookup projData).allLabels =
      classifyTrelloLabels board mapDoc.labels ghLabels ++
        (classifyListMappings board ghLabels ghMilestones
          (getProjectInfo mapDoc projData) mapDoc.lists).labels := rfl

theorem classifyTrelloLabel_trelloRef (ml : List LabelMapping) (gh : List GhLabel)
    (tl : TrelloLabelRef) : (classifyTrelloLabel ml gh tl).trelloRef = some tl := by
  unfold classifyTrelloLabel
  split
  · rfl
  · rfl
  · split <;> rfl

theorem displayRenderOk_false_of_bad_color (board : Board) (mapDoc : MapDoc)
    (ghLabels : List GhLabel) (ghMilestones : List GhMilestone)
    (lookup : String → Option GhUser) (projData : ProjectInfo)
    (tl : TrelloLabelRef) (h1 : tl ∈ board.labels)
    (h2 : trelloColorPalette.contains tl.color = false) :
    displayRenderOk (validate board mapDoc ghLabels ghMilestones lookup projData).allLabels
      = false := by
  have hmem : classifyTrelloLabel mapDoc.labels ghLabels tl ∈
      (validate board mapDoc ghLabels ghMilestones lookup projData).allLabels := by
    rw [validate_allLabels]
    exact List.mem_append_left _ (List.mem_map_of_mem _ h1)
  apply Bool.eq_false_iff.mpr
  intro hall
  unfold displayRenderOk at hall
  have hp := List.all_eq_true.mp hall _ hmem
  rw [classifyTrelloLabel_trelloRef] at hp
  simp only [renderTrelloLabelOk] at hp
  rw [h2] at hp
  exact Bool.false_ne_true hp

theorem runDecision_ne_some_completed (vs : ValidationState) (ghLabels : List GhLabel)
    (cs ce : Bool) : runDecision vs ghLabels cs ce ≠ some .completed := by
  unfold runDecision
  split
  · decide
  · split
    · decide
    · split
      · decide
      · split <;> decide

theorem run_eq_of_completed (board : Board) (mapDoc : MapDoc) (ghLabels : List GhLabel)
    (ghMilestones : List GhMilestone) (lookup : String → Option GhUser)
    (projData : ProjectInfo) (renderDate : Int → String) (kc cs ce : Bool)
    (h : (run board mapDoc ghLabels ghMilestones lookup projData renderDate kc cs ce).outcome
      = .completed) :
    run board mapDoc ghLabels ghMilestones lookup projData renderDate kc cs ce =
      ⟨.completed,
        executeTrace board (validate board mapDoc ghLabels ghMilestones lookup projData)
          (getProjectInfo mapDoc projData) renderDate⟩ := by
  simp only [run] at h ⊢
  rcases hd : runDecision (validate board mapDoc ghLabels ghMilestones lookup projData)
      ghLabels cs ce with _ | o
  · rfl
  · rw [hd] at h
    have ho : o = .completed := h
    subst ho
    exact absurd hd (runDecision_ne_some_completed _ _ _ _)

theorem issueCardIds_filterMap_labelCreateCall (ls : List Label) :
    (ls.filterMap labelCreateCall).filterMap issueCardId = [] := by
  induction ls with
  | nil => rfl
  | cons l t ih => cases l <;> simp [labelCreateCall, issueCardId, ih]

theorem issueCardIds_comment_calls (cid : String) (bodies : List String) :
    (bodies.map (RemoteCall.createComment cid)).filterMap issueCardId = [] := by
  induction bodies with
  | nil => rfl
  | cons b t ih => simp [issueCardId, ih]

theorem issueCardIds_proj_calls (projectInfo : Option ProjectInfo)
    (vsf : List (String × StatusOption)) (card : TrelloCard) :
    (projCallsForCard projectInfo vsf card).filterMap issueCardId = [] := by
  cases projectInfo with
  | none => rfl
  | some p =>
    rcases h : mapGet vsf card.id with _ | st <;>
      simp [projCallsForCard, h, issueCardId]

theorem issueCardIds_callsForCard (board : Board) (vm : List ResolvedUser)
    (ml : List Label) (vms : List (String × GhMilestone))
    (vsf : List (String × StatusOption)) (projectInfo : Option ProjectInfo)
    (rd : Int → String) (card : TrelloCard) :
    (callsForCard board vm ml vms vsf projectInfo rd card).filterMap issueCardId
      = [card.id] := by
  unfold callsForCard
  simp [issueCardId, List.filterMap_append, issueCardIds_comment_calls,
    issueCardIds_proj_calls]

theorem issueCardIds_executeTrace (board : Board) (vs : ValidationState)
    (projectInfo : Option ProjectInfo) (rd : Int → String) :
    issueCardIds (executeTrace board vs projectInfo rd) =
      board.cards.map (fun c => c.id) := by
  unfold executeTrace issueCardIds
  rw [List.filterMap_append, issueCardIds_filterMap_labelCreateCall]
  have : ∀ cards : List TrelloCard,
      (cards.flatMap (callsForCard board vs.validMembers vs.mappedLabels
        vs.validMilestones vs.validStatusFields projectInfo rd)).filterMap issueCardId
        = cards.map (fun c => c.id) := by
    intro cards
    induction cards with
    | nil => rfl
    | cons c t ih =>
      simp [List.filterMap_append, issueCardIds_callsForCard, ih]
  rw [this]
  rfl

/-! ## Claim theorems -/

/-- Claim C1 (code bug): `skip.lists = ["Done"]` resolves the "Done" list
into `skippedLists`, yet the card on that list still produces an issue-create
call, because the result of `trello.cards.filter(...)` at line 993 is
discarded: the card loop iterates the unfiltered `trello.cards`. -/
theorem c1_skipped_list_cards_still_create_issues :
    (validate board1 map1 [] [] lookupNone projData0).skippedLists
      = [⟨"L1", "Done", false⟩] ∧
    (board1.cards.map fun c => c.idList) = ["L1", "L2"] ∧
    issueCardIds (run board1 map1 [] [] lookupNone projData0 renderDate0
      false true true).trace = ["C1", "C2"] := by
  decide

/-- Claim C2 (code bug): list "L1" is mapped to milestone "v1" and the
milestone map is keyed by the list id, but the card loop looks the milestone
up under `card.id` (line 1300), so the card on "L1" is created with no
milestone where the claim requires milestone number 3. -/
theorem c2_milestone_looked_up_under_card_id :
    (validate board2 map2 [] [ms2] lookupNone projData0).validMilestones
      = [("L1", ms2)] ∧
    board2.cards.map (fun c => (c.id, c.idList)) = [("C1", "L1")] ∧
    (run board2 map2 [] [ms2] lookupNone projData0 renderDate0
      false true true).trace =
      [RemoteCall.createIssue "C1" "Card"
        "\n---\n> Migrated from [Trello Card](u1)" [] [] none] := by
  decide

/-- Claim C3 (code bug): with a project configured and list "L1" mapped to
the live status option "In Progress", the card from "L1" gets its
`addProjectItem` call but never a `setProjectItemStatus` call: the status map
is keyed by the list id while the loop reads `validStatusFields.get(card.id)`
(line 1317), which misses. -/
theorem c3_status_looked_up_under_card_id :
    (validate board2 map3 [] [] lookupNone projData3).validStatusFields
      = [("L1", statusOpt3)] ∧
    board2.cards.map (fun c => (c.id, c.idList)) = [("C1", "L1")] ∧
    (run board2 map3 [] [] lookupNone projData3 renderDate0
      false true true).trace =
      [RemoteCall.createIssue "C1" "Card"
        "\n---\n> Migrated from [Trello Card](u1)" [] [] none,
       RemoteCall.addProjectItem "C1"] := by
  decide

/-- Claim C4 (confirmed): the fatal check aggregates exactly the six
reconciliation error classes, and whenever any of them is non-empty the run
ends with a non-zero exit and an empty trace — no mutating remote call is
ever issued. -/
theorem c4_nonempty_report_aborts_before_any_mutation
    (board : Board) (mapDoc : MapDoc) (ghLabels : List GhLabel)
    (ghMilestones : List GhMilestone) (lookup : String → Option GhUser)
    (projData : ProjectInfo) (renderDate : Int → String) (kc cs ce : Bool)
    (h : (validate board mapDoc ghLabels ghMilestones lookup projData).fatal = true) :
    ((validate board mapDoc ghLabels ghMilestones lookup projData).fatal = true ↔
      ((validate board mapDoc ghLabels ghMilestones lookup projData).missingLabels ≠ [] ∨
       (validate board mapDoc ghLabels ghMilestones lookup projData).invalidMembers ≠ [] ∨
       (validate board mapDoc ghLabels ghMilestones lookup projData).invalidLists ≠ [] ∨
       (validate board mapDoc ghLabels ghMilestones lookup projData).missingMilestones ≠ [] ∨
       (validate board mapDoc ghLabels ghMilestones lookup projData).missingStatusFields ≠ [] ∨
       (validate board mapDoc ghLabels ghMilestones lookup projData).usedStatusWithoutProject
         = true)) ∧
    (run board mapDoc ghLabels ghMilestones lookup projData renderDate kc cs ce).trace = [] ∧
    (run board mapDoc ghLabels ghMilestones lookup projData renderDate
      kc cs ce).outcome.exitCode ≠ 0 := by
  refine ⟨?_, ?_⟩
  · unfold ValidationState.fatal
    simp [List.isEmpty_iff, or_assoc]
  · have hrun : ∃ o, o ≠ Outcome.completed ∧ o ≠ Outcome.cancelled ∧
        run board mapDoc ghLabels ghMilestones lookup projData renderDate kc cs ce
          = ⟨o, []⟩ := by
      simp only [run]
      by_cases hr : displayRenderOk
          (validate board mapDoc ghLabels ghMilestones lookup projData).allLabels
      · refine ⟨.validationFailed, by decide, by decide, ?_⟩
        have hd : runDecision (validate board mapDoc ghLabels ghMilestones lookup projData)
            ghLabels cs ce = some .validationFailed := by
          unfold runDecision
          rw [hr, h]
          rfl
        rw [hd]
      · refine ⟨.renderPanic, by decide, by decide, ?_⟩
        have hd : runDecision (validate board mapDoc ghLabels ghMilestones lookup projData)
            ghLabels cs ce = some .renderPanic := by
          unfold runDecision
          rw [Bool.eq_false_iff.mpr hr]
          rfl
        rw [hd]
    obtain ⟨o, ho1, ho2, heq⟩ := hrun
    rw [heq]
    refine ⟨rfl, ?_⟩
    cases o
    · decide
    · decide
    · exact absurd rfl ho2
    · exact absurd rfl ho1

/-- Witness for C4: a mapping whose single user lookup 404s makes the report
non-empty, and the run aborts with exit code 1 and no remote mutation. -/
theorem c4_nonempty_report_aborts_before_any_mutation_witness :
    (run board0 map4w [] [] lookupNone projData0 renderDate0
      false true true).trace = [] ∧
    (run board0 map4w [] [] lookupNone projData0 renderDate0
      false true true).outcome.exitCode ≠ 0 :=
  (c4_nonempty_report_aborts_before_any_mutation board0 map4w [] [] lookupNone
    projData0 renderDate0 false true true (by decide)).2

/-- Claim C5 (code bug): with no `project` declared and a resolved list entry
carrying `status = "In Progress"`, the status branch is guarded by
`projectInfo && mapping.status` (line 963), so the inner
`if (!projectInfo)` recording of `usedStatusWithoutProject` is unreachable:
the flag stays `false`, validation passes, and the run proceeds to create the
issue instead of aborting. -/
theorem c5_status_without_project_never_recorded :
    map5.project = none ∧
    (map5.lists.map fun m => m.status) = [some "In Progress"] ∧
    (validate board2 map5 [] [] lookupNone projData0).usedStatusWithoutProject = false ∧
    (run board2 map5 [] [] lookupNone projData0 renderDate0
      false true true).outcome = .completed ∧
    issueCardIds (run board2 map5 [] [] lookupNone projData0 renderDate0
      false true true).trace = ["C1"] := by
  decide

/-- Claim C6 counterexample: the card member's id is "mid"; the first
resolved member's Trello name equals the member's username and the second's
equals its id, yet resolution returns the first member's login "userA" — the
id match does not win. -/
theorem c6_counterexample_member_order_beats_id_match :
    mapMemberId [⟨"mid", "Full Name", "uname"⟩]
      [⟨"uname", "ghA", some ⟨"userA"⟩⟩, ⟨"mid", "ghB", some ⟨"userB"⟩⟩] "mid"
      = some "userA" ∧ ("userA" : String) ≠ "userB" := by
  decide

/-- Claim C6 as amended: member resolution walks the resolved members in
their resolution order, accepting the first whose stored Trello-side name
equals any of the card member's id, username, or full name — the earlier
member wins even when it matches by username and a later one matches by id. -/
theorem c6_first_resolved_member_wins
    (boardMembers : List TrelloMember) (pre post : List ResolvedUser)
    (tm : TrelloMember) (m : ResolvedUser) (u : GhUser) (tid : String)
    (hfind : boardMembers.find? (fun mem => mem.id == tid) = some tm)
    (hpre : ∀ x ∈ pre, memberMatchesTrello tm x = false)
    (hm : memberMatchesTrello tm m = true)
    (hgh : m.github = some u) :
    mapMemberId boardMembers (pre ++ m :: post) tid = some u.login := by
  have hfp : (pre ++ m :: post).find? (memberMatchesTrello tm) = some m := by
    induction pre with
    | nil => simp [List.find?_cons, hm]
    | cons a t ih =>
      have ha := hpre a (by simp)
      rw [List.cons_append, List.find?_cons, ha]
      exact ih (fun x hx => hpre x (by simp [hx]))
  unfold mapMemberId
  simp [hfind, hfp, hgh]

/-- Witness for the amended C6: one non-matching member, then a
username-matching member with login "userA", then an id-matching one; the
username-matching member is resolved. -/
theorem c6_first_resolved_member_wins_witness :
    mapMemberId [⟨"mid", "Full Name", "uname"⟩]
      ([⟨"zz", "ghZ", none⟩] ++ ⟨"uname", "ghA", some ⟨"userA"⟩⟩ ::
        [⟨"mid", "ghB", some ⟨"userB"⟩⟩]) "mid"
      = some (GhUser.login ⟨"userA"⟩) :=
  c6_first_resolved_member_wins [⟨"mid", "Full Name", "uname"⟩]
    [⟨"zz", "ghZ", none⟩] [⟨"mid", "ghB", some ⟨"userB"⟩⟩]
    ⟨"mid", "Full Name", "uname"⟩ ⟨"uname", "ghA", some ⟨"userA"⟩⟩ ⟨"userA"⟩ "mid"
    (by decide) (by decide) (by decide) (by decide)

/-- Claim C7 counterexample: for a card with empty description, no
checklists, and no attachments the rendered body is not the bare footer:
`getDescriptionForCard` prepends a newline (`body += "\n---\n> ..."` onto the
empty body). -/
theorem c7_counterexample_body_is_not_bare_footer :
    getDescriptionForCard [] (plainCard "C7" "Empty card" "L1" "https://trello.com/c/x")
      ≠ "---\n> Migrated from [Trello Card](https://trello.com/c/x)" := by
  decide

/-- Claim C7 as amended: for every card with empty description, no
checklists, and no attachments, the rendered body is a newline followed by
the fixed migration-footer line, and nothing else. -/
theorem c7_empty_card_body_is_newline_and_footer
    (checklists : List TrelloChecklist) (card : TrelloCard)
    (hdesc : card.desc = "") (hcl : card.idChecklists = [])
    (hatt : card.attachments = []) :
    getDescriptionForCard checklists card =
      "\n---\n> Migrated from [Trello Card](" ++ card.url ++ ")" := by
  unfold getDescriptionForCard getChecklistContentForCard
  rw [hdesc, hcl, hatt]
  simp
  rw [show String.intercalate "\n" ([] : List String) = "" from rfl]
  simp

/-- Witness for the amended C7: a concrete empty card renders to exactly the
newline-prefixed footer. -/
theorem c7_empty_card_body_is_newline_and_footer_witness :
    getDescriptionForCard [] (plainCard "C7w" "Empty" "L1" "u7") =
      "\n---\n> Migrated from [Trello Card](" ++
        (plainCard "C7w" "Empty" "L1" "u7").url ++ ")" :=
  c7_empty_card_body_is_newline_and_footer [] (plainCard "C7w" "Empty" "L1" "u7")
    rfl rfl rfl

/-- Claim C8 (confirmed): when the mapping entry governing a board label has
`create = true`, the label is classified `toCreate`, and the classification
is the same for any two sets of existing GitHub labels — existence of a
same-named remote label does not influence classification. -/
theorem c8_create_true_classification_ignores_existing_labels
    (mapLabels : List LabelMapping) (ghLabels ghLabels' : List GhLabel)
    (tl : TrelloLabelRef) (t g : String) (c : Option String)
    (hfind : mapLabels.find? (fun lm => lm.trello == tl.name)
      = some (.create t g c)) :
    classifyTrelloLabel mapLabels ghLabels tl = .toCreate tl g c ∧
    classifyTrelloLabel mapLabels ghLabels tl
      = classifyTrelloLabel mapLabels ghLabels' tl := by
  unfold classifyTrelloLabel
  rw [hfind]
  exact ⟨rfl, rfl⟩

/-- Witness for C8: a `create:true` entry for label "RFC" classifies it
`toCreate` both against an empty remote label set and against one already
containing "Request For Comments". -/
theorem c8_create_true_classification_ignores_existing_labels_witness :
    classifyTrelloLabel [.create "RFC" "Request For Comments" none] []
      ⟨"lb1", "RFC", "blue", 1⟩
      = .toCreate ⟨"lb1", "RFC", "blue", 1⟩ "Request For Comments" none ∧
    classifyTrelloLabel [.create "RFC" "Request For Comments" none] []
      ⟨"lb1", "RFC", "blue", 1⟩
      = classifyTrelloLabel [.create "RFC" "Request For Comments" none]
          [⟨9, "Request For Comments", "aaaaaa"⟩] ⟨"lb1", "RFC", "blue", 1⟩ :=
  c8_create_true_classification_ignores_existing_labels
    [.create "RFC" "Request For Comments" none] []
    [⟨9, "Request For Comments", "aaaaaa"⟩] ⟨"lb1", "RFC", "blue", 1⟩
    "RFC" "Request For Comments" none (by decide)

/-- Claim C9 (confirmed): the closed-card filter at line 761-763 discards its
result, so a run is identical for any two values of `--keep-closed`, and
whenever execution is reached every card — archived or not — produces exactly
one issue-create call, in original card order. -/
theorem c9_closed_cards_migrated_like_open_ones
    (board : Board) (mapDoc : MapDoc) (ghLabels : List GhLabel)
    (ghMilestones : List GhMilestone) (lookup : String → Option GhUser)
    (projData : ProjectInfo) (renderDate : Int → String) (kc kc' cs ce : Bool)
    (h : (run board mapDoc ghLabels ghMilestones lookup projData renderDate
      kc cs ce).outcome = .completed) :
    run board mapDoc ghLabels ghMilestones lookup projData renderDate kc cs ce
      = run board mapDoc ghLabels ghMilestones lookup projData renderDate kc' cs ce ∧
    issueCardIds (run board mapDoc ghLabels ghMilestones lookup projData renderDate
      kc cs ce).trace = board.cards.map (fun c => c.id) := by
  refine ⟨rfl, ?_⟩
  rw [run_eq_of_completed board mapDoc ghLabels ghMilestones lookup projData
    renderDate kc cs ce h]
  exact issueCardIds_executeTrace board _ _ renderDate

/-- Witness for C9: a board whose only card is archived (`closed = true`)
still yields exactly that card's issue-create call. -/
theorem c9_closed_cards_migrated_like_open_ones_witness :
    run board9w emptyMap [] [] lookupNone projData0 renderDate0 true true true
      = run board9w emptyMap [] [] lookupNone projData0 renderDate0 false true true ∧
    issueCardIds (run board9w emptyMap [] [] lookupNone projData0 renderDate0
      true true true).trace = board9w.cards.map (fun c => c.id) :=
  c9_closed_cards_migrated_like_open_ones board9w emptyMap [] [] lookupNone
    projData0 renderDate0 true false true true (by decide)

/-- Claim C10 (confirmed): any board label whose color lies outside the fixed
Trello palette makes `renderTrelloLabel`'s invariant throw while the labels
are being displayed, so the run aborts — whatever the label's classification —
before either confirmation prompt and before any mutating call. -/
theorem c10_invalid_color_aborts_during_display
    (board : Board) (mapDoc : MapDoc) (ghLabels : List GhLabel)
    (ghMilestones : List GhMilestone) (lookup : String → Option GhUser)
    (projData : ProjectInfo) (renderDate : Int → String) (kc cs ce : Bool)
    (tl : TrelloLabelRef) (h1 : tl ∈ board.labels)
    (h2 : trelloColorPalette.contains tl.color = false) :
    (run board mapDoc ghLabels ghMilestones lookup projData renderDate
      kc cs ce).outcome = .renderPanic ∧
    (run board mapDoc ghLabels ghMilestones lookup projData renderDate
      kc cs ce).trace = [] := by
  have hr := displayRenderOk_false_of_bad_color board mapDoc ghLabels ghMilestones
    lookup projData tl h1 h2
  have hd : runDecision (validate board mapDoc ghLabels ghMilestones lookup projData)
      ghLabels cs ce = some .renderPanic := by
    unfold runDecision
    rw [hr]
    rfl
  simp [run, hd]

/-- Witness for C10: a board label colored "magenta" (not a Trello palette
color) makes the concrete run abort during display with an empty trace. -/
theorem c10_invalid_color_aborts_during_display_witness :
    (run board10w emptyMap [] [] lookupNone projData0 renderDate0
      false true true).outcome = .renderPanic ∧
    (run board10w emptyMap [] [] lookupNone projData0 renderDate0
      false true true).trace = [] :=
  c10_invalid_color_aborts_during_display board10w emptyMap [] [] lookupNone
    projData0 renderDate0 false true true ⟨"lb1", "Urgent", "magenta", 0⟩
    (by decide) (by decide)

end TrelloToGithub
